import Mathlib

/-
  Verification development for the LearnLynk repository.

  Embedded source files:
  - backend/rls_policies.sql (src/unnamed/part_000): row-level security
    policies on the leads table, translated as pure Boolean predicates over
    an authentication context, following SQL null semantics for missing JWT
    claims (a comparison against a missing claim is never true).
  - backend/edge-functions/create-task/index.ts: the serve handler,
    translated as a pure function from the request (method, parsed body),
    the clock, the applications table and the tasks table to a response and
    the resulting tasks table. The JavaScript Date parser is passed in as a
    collaborator function returning none exactly when the source value is
    NaN; timestamps are milliseconds as naturals.
  - frontend/pages/dashboard/today.tsx: fetchTasks (the due-today query)
    and markComplete (the completion update), translated over an explicit
    list of task rows.
-/

namespace LearnLynk

/-! ## Row-level security policies on leads (rls_policies.sql) -/

/-- JWT claims read by the policies; a claim can be absent. -/
structure Jwt where
  tenant_id : Option String
  role : Option String

/-- The database authentication context: auth.jwt(), auth.uid(), auth.role(). -/
structure AuthCtx where
  jwt : Jwt
  uid : String
  authRole : String

/-- A row of public.leads, with the columns the policies read. -/
structure Lead where
  id : String
  tenant_id : String
  owner_id : String
  team_id : Option String

/-- A row of user_teams. -/
structure UserTeam where
  user_id : String
  team_id : String

/-- The EXISTS subquery of leads_select_policy over user_teams:
    select 1 from user_teams ut where ut.user_id = auth.uid()
    and ut.team_id = leads.team_id.
    A null leads.team_id never equals a row team_id (SQL null semantics). -/
def teamMembershipExists (uts : List UserTeam) (ctx : AuthCtx) (l : Lead) : Bool :=
  uts.any (fun ut => ut.user_id == ctx.uid && some ut.team_id == l.team_id)

/-- leads_select_policy USING clause: tenant isolation, then admin OR
    ownership OR team membership. A missing jwt tenant or role claim makes
    its comparison false. -/
def leads_select_policy (uts : List UserTeam) (ctx : AuthCtx) (l : Lead) : Bool :=
  ctx.jwt.tenant_id == some l.tenant_id
    && (ctx.jwt.role == some "admin"
      || l.owner_id == ctx.uid
      || teamMembershipExists uts ctx l)

/-- leads_insert_policy WITH CHECK clause: authenticated, tenant match,
    role in (admin, counselor). -/
def leads_insert_policy (ctx : AuthCtx) (l : Lead) : Bool :=
  ctx.authRole == "authenticated"
    && ctx.jwt.tenant_id == some l.tenant_id
    && (ctx.jwt.role == some "admin" || ctx.jwt.role == some "counselor")

/-- The set of team ids a user belongs to, read off the user_teams table. -/
def MembershipsOf (uts : List UserTeam) (uid : String) : List String :=
  (uts.filter (fun ut => ut.user_id == uid)).map (fun ut => ut.team_id)

/-! ## Edge function create-task (index.ts) -/

/-- A row of applications, with the columns the handler reads. -/
structure App where
  id : String
  tenant_id : String
deriving DecidableEq

/-- A row of tasks as inserted by the handler. -/
structure Task where
  tenant_id : String
  application_id : String
  type : String
  due_at : String
  status : String
deriving DecidableEq

/-- The JSON request body; each field may be absent. -/
structure CreateTaskBody where
  application_id : Option String
  task_type : Option String
  due_at : Option String

/-- The outcome of req.json(): a parse failure (which the catch block
    turns into a 500) or a parsed body. -/
inductive ReqBody where
  | invalidJson : ReqBody
  | json : CreateTaskBody → ReqBody

/-- An HTTP response: status code and the error message of the JSON body
    (none on success). -/
structure HttpResponse where
  status : Nat
  error : Option String
deriving DecidableEq

/-- The handler result: the response and the tasks table afterwards. -/
structure ServeResult where
  response : HttpResponse
  tasks : List Task
deriving DecidableEq

def VALID_TYPES : List String := ["call", "email", "review"]

/-- JavaScript falsiness of an optional string field: absent or empty. -/
def falsy : Option String → Bool
  | none => true
  | some s => s == ""

/-- The serve handler of create-task. parseDate stands for new Date(s)
    .getTime(), returning none when the result is NaN; now is the clock at
    evaluation time; apps and tasks are the two tables. The handler reads
    no principal: it runs with the service role key and derives tenant_id
    from the application row. The storage-failure 500 branch of the insert
    is not modelled (external collaborator failure). -/
def serveHandler (parseDate : String → Option Nat) (now : Nat)
    (apps : List App) (tasks : List Task)
    (method : String) (body : ReqBody) : ServeResult :=
  if method != "POST" then
    ⟨⟨405, some "Method not allowed"⟩, tasks⟩
  else
    match body with
    | ReqBody.invalidJson => ⟨⟨500, some "Internal server error"⟩, tasks⟩
    | ReqBody.json b =>
      if falsy b.application_id || falsy b.task_type || falsy b.due_at then
        ⟨⟨400, some "Missing required fields"⟩, tasks⟩
      else
        let application_id := b.application_id.getD ""
        let task_type := b.task_type.getD ""
        let due_at := b.due_at.getD ""
        if !(VALID_TYPES.contains task_type) then
          ⟨⟨400, some ("Invalid task_type. Must be one of: "
            ++ String.intercalate ", " VALID_TYPES)⟩, tasks⟩
        else
          match parseDate due_at with
          | none => ⟨⟨400, some "due_at must be a valid date in the future"⟩, tasks⟩
          | some d =>
            if d ≤ now then
              ⟨⟨400, some "due_at must be a valid date in the future"⟩, tasks⟩
            else
              match apps.find? (fun a => a.id == application_id) with
              | none => ⟨⟨400, some "Application not found"⟩, tasks⟩
              | some app =>
                ⟨⟨200, none⟩,
                  tasks ++ [⟨app.tenant_id, application_id, task_type, due_at, "open"⟩]⟩

/-! ## Dashboard today.tsx: fetchTasks and markComplete -/

/-- A row of the tasks table as seen by the dashboard. due_at is
    milliseconds since the epoch (the ISO strings the source compares are
    order-isomorphic to their timestamps). -/
structure DbTask where
  id : String
  type : String
  status : String
  application_id : String
  tenant_id : String
  due_at : Nat
deriving DecidableEq

def MS_PER_DAY : Nat := 86400000

/-- now.setHours(0, 0, 0, 0): start of the reference day. -/
def startOfDay (t : Nat) : Nat := t - t % MS_PER_DAY

/-- now.setHours(23, 59, 59, 999): end of the reference day. -/
def endOfDay (t : Nat) : Nat := startOfDay t + (MS_PER_DAY - 1)

/-- Modelled from the spec: the rows of the tasks table visible to the
    dashboard client are exactly those of the caller tenant. The tenant
    scoping itself (schema.sql and the tasks RLS policies the anon-key
    client goes through) is not among the provided sources; fetchTasks in
    today.tsx issues no tenant filter of its own. -/
def visibleTasks (tenant : String) (ts : List DbTask) : List DbTask :=
  ts.filter (fun t => t.tenant_id == tenant)

/-- The query chain of fetchTasks: neq status completed, gte due_at start,
    lte due_at end, order by due_at ascending. -/
def fetchTasks (tenant : String) (now : Nat) (ts : List DbTask) : List DbTask :=
  List.insertionSort (fun a b => a.due_at ≤ b.due_at)
    ((visibleTasks tenant ts).filter
      (fun t => t.status != "completed"
        && decide (startOfDay now ≤ t.due_at)
        && decide (t.due_at ≤ endOfDay now)))

/-- markComplete: update tasks set status = completed where id = i. -/
def markComplete (ts : List DbTask) (i : String) : List DbTask :=
  ts.map (fun t => if t.id == i then { t with status := "completed" } else t)

/-! ## Theorems about the leads policies -/

/-- The EXISTS subquery holds exactly when the lead has a non-null team id
    that is among the memberships of the current user. -/
theorem teamMembershipExists_iff (uts : List UserTeam) (ctx : AuthCtx) (l : Lead) :
    teamMembershipExists uts ctx l = true
      ↔ ∃ t, l.team_id = some t ∧ t ∈ MembershipsOf uts ctx.uid := by
  simp only [teamMembershipExists, MembershipsOf, List.any_eq_true, Bool.and_eq_true,
    beq_iff_eq, List.mem_map, List.mem_filter]
  constructor
  · rintro ⟨ut, hmem, huid, hteam⟩
    exact ⟨ut.team_id, hteam.symm, ut, ⟨hmem, by simp [huid]⟩, rfl⟩
  · rintro ⟨t, hteam, ut, ⟨hmem, huid⟩, rfl⟩
    exact ⟨ut, hmem, by simpa using huid, hteam.symm⟩

/-- C2: for every principal whose JWT tenant claim differs from the tenant
    of a lead row, both the select policy and the insert policy evaluate to
    false, whatever the role, the owner column or the user_teams table. -/
theorem tenant_isolation_absolute (uts : List UserTeam) (ctx : AuthCtx) (l : Lead)
    (pt : String) (hjwt : ctx.jwt.tenant_id = some pt) (hne : pt ≠ l.tenant_id) :
    leads_select_policy uts ctx l = false ∧ leads_insert_policy ctx l = false := by
  constructor
  · simp [leads_select_policy, hjwt, hne]
  · simp [leads_insert_policy, hjwt, hne]

/-- Witness for C2: an admin who owns the lead but sits in tenant T2 is
    denied both select and insert on a tenant T1 lead. -/
theorem tenant_isolation_absolute_witness :
    leads_select_policy [] ⟨⟨some "T2", some "admin"⟩, "u1", "authenticated"⟩
        ⟨"l1", "T1", "u1", none⟩ = false
    ∧ leads_insert_policy ⟨⟨some "T2", some "admin"⟩, "u1", "authenticated"⟩
        ⟨"l1", "T1", "u1", none⟩ = false :=
  tenant_isolation_absolute [] ⟨⟨some "T2", some "admin"⟩, "u1", "authenticated"⟩
    ⟨"l1", "T1", "u1", none⟩ "T2" rfl (by decide)

/-- C3: in the same tenant, read access is granted exactly to the admin
    role, the owner, or a member of the non-null team of the lead; a null
    team id never grants through the team path, and a counselor who is
    neither owner nor team member is denied. -/
theorem leads_read_decision (uts : List UserTeam) (ctx : AuthCtx) (l : Lead)
    (hsame : ctx.jwt.tenant_id = some l.tenant_id) :
    (leads_select_policy uts ctx l = true
      ↔ (ctx.jwt.role = some "admin" ∨ l.owner_id = ctx.uid
          ∨ ∃ t, l.team_id = some t ∧ t ∈ MembershipsOf uts ctx.uid))
    ∧ (l.team_id = none →
        (leads_select_policy uts ctx l = true
          ↔ (ctx.jwt.role = some "admin" ∨ l.owner_id = ctx.uid)))
    ∧ (ctx.jwt.role = some "counselor" → l.owner_id ≠ ctx.uid →
        (∀ t, l.team_id = some t → t ∉ MembershipsOf uts ctx.uid) →
        leads_select_policy uts ctx l = false) := by
  have hmain : leads_select_policy uts ctx l = true
      ↔ (ctx.jwt.role = some "admin" ∨ l.owner_id = ctx.uid
          ∨ ∃ t, l.team_id = some t ∧ t ∈ MembershipsOf uts ctx.uid) := by
    simp [leads_select_policy, hsame, teamMembershipExists_iff, or_assoc]
  refine ⟨hmain, ?_, ?_⟩
  · intro hnone
    rw [hmain]
    simp [hnone]
  · intro hrole howner hteam
    rw [Bool.eq_false_iff]
    intro htrue
    rcases hmain.mp htrue with h | h | ⟨t, ht, hmem⟩
    · simp [hrole] at h
    · exact howner h
    · exact hteam t ht hmem

/-- Witness for C3: a counselor who does not own the lead reads it through
    membership in its team, inside the same tenant. -/
theorem leads_read_decision_witness :
    leads_select_policy [⟨"u1", "team1"⟩]
        ⟨⟨some "T1", some "counselor"⟩, "u1", "authenticated"⟩
        ⟨"l1", "T1", "owner2", some "team1"⟩ = true :=
  ((leads_read_decision [⟨"u1", "team1"⟩]
      ⟨⟨some "T1", some "counselor"⟩, "u1", "authenticated"⟩
      ⟨"l1", "T1", "owner2", some "team1"⟩ rfl).1).mpr
    (Or.inr (Or.inr ⟨"team1", rfl, by decide⟩))

/-- C8: the insert policy permits exactly an authenticated identity of the
    row tenant whose role is admin or counselor; the decision ignores every
    column of the row other than tenant_id (in particular ownership). -/
theorem leads_insert_decision (ctx : AuthCtx) (l : Lead) :
    (leads_insert_policy ctx l = true
      ↔ (ctx.authRole = "authenticated" ∧ ctx.jwt.tenant_id = some l.tenant_id
          ∧ (ctx.jwt.role = some "admin" ∨ ctx.jwt.role = some "counselor")))
    ∧ (∀ l2 : Lead, l2.tenant_id = l.tenant_id →
        leads_insert_policy ctx l2 = leads_insert_policy ctx l) := by
  constructor
  · simp [leads_insert_policy, and_assoc]
  · intro l2 h
    simp [leads_insert_policy, h]

/-- Witness for C8: a counselor inserting a lead of their tenant that they
    do not own is permitted. -/
theorem leads_insert_decision_witness :
    leads_insert_policy ⟨⟨some "T1", some "counselor"⟩, "u1", "authenticated"⟩
        ⟨"l1", "T1", "u2", none⟩ = true :=
  ((leads_insert_decision ⟨⟨some "T1", some "counselor"⟩, "u1", "authenticated"⟩
      ⟨"l1", "T1", "u2", none⟩).1).mpr ⟨rfl, rfl, Or.inr rfl⟩

/-! ## Theorems about the dashboard operations -/

/-- C4: completing a task is idempotent at the level of stored state. The
    update never errors in the model (storage failure is an external
    collaborator concern); running it a second time changes nothing, every
    matching task ends with status completed, and on a store where the task
    is already completed the update returns the store unchanged. -/
theorem completeTask_idempotent (ts : List DbTask) (i : String) :
    markComplete (markComplete ts i) i = markComplete ts i
    ∧ (∀ t ∈ markComplete ts i, t.id = i → t.status = "completed")
    ∧ ((∀ t ∈ ts, t.id = i → t.status = "completed") → markComplete ts i = ts) := by
  refine ⟨?_, ?_, ?_⟩
  · unfold markComplete
    rw [List.map_map]
    apply List.map_congr_left
    intro t _
    obtain ⟨tid, tty, tst, tapp, ttn, tdue⟩ := t
    by_cases h : tid == i <;> simp [Function.comp, h]
  · intro t ht hid
    simp only [markComplete, List.mem_map] at ht
    rcases ht with ⟨t0, ht0, heq⟩
    by_cases h : t0.id == i
    · rw [← heq]
      simp [h]
    · rw [← heq] at hid
      simp only [h, if_neg, Bool.not_eq_true] at hid
      exact absurd (beq_iff_eq.mpr hid) h
  · intro hall
    unfold markComplete
    have h1 : ts.map (fun t => if t.id == i then { t with status := "completed" } else t)
        = ts.map id := by
      apply List.map_congr_left
      intro t ht
      by_cases h : t.id == i
      · have hst := hall t ht (beq_iff_eq.mp h)
        obtain ⟨tid, tty, tst, tapp, ttn, tdue⟩ := t
        simp_all
      · simp [h]
    rw [h1, List.map_id]

/-- Witness for C4: the update applied to a store whose only task is
    already completed returns the store unchanged. -/
theorem completeTask_idempotent_witness :
    markComplete [⟨"t1", "call", "completed", "a1", "T1", 5⟩] "t1"
      = [⟨"t1", "call", "completed", "a1", "T1", 5⟩] :=
  (completeTask_idempotent [⟨"t1", "call", "completed", "a1", "T1", 5⟩] "t1").2.2
    (by decide)

instance : DecidableRel (fun (a b : DbTask) => a.due_at ≤ b.due_at) :=
  fun a b => Nat.decLe a.due_at b.due_at

instance : IsTotal DbTask (fun a b => a.due_at ≤ b.due_at) :=
  ⟨fun a b => Nat.le_total a.due_at b.due_at⟩

instance : IsTrans DbTask (fun a b => a.due_at ≤ b.due_at) :=
  ⟨fun _ _ _ h1 h2 => Nat.le_trans h1 h2⟩

/-- C5: the due-today query returns exactly the visible tasks of the
    caller tenant that are not completed and fall inside the inclusive day
    window, sorted ascending by due time; a task due at the last
    millisecond of the day is included, one due at the first millisecond of
    the next day is excluded, and a completed task is excluded whatever its
    due time. -/
theorem fetchTasks_spec (tenant : String) (now : Nat) (ts : List DbTask) :
    (∀ t : DbTask, t ∈ fetchTasks tenant now ts
      ↔ (t ∈ ts ∧ t.tenant_id = tenant ∧ t.status ≠ "completed"
          ∧ startOfDay now ≤ t.due_at ∧ t.due_at ≤ endOfDay now))
    ∧ List.Sorted (fun a b => a.due_at ≤ b.due_at) (fetchTasks tenant now ts)
    ∧ (∀ t ∈ ts, t.tenant_id = tenant → t.status ≠ "completed" →
        t.due_at = endOfDay now → t ∈ fetchTasks tenant now ts)
    ∧ (∀ t ∈ ts, t.due_at = startOfDay now + MS_PER_DAY → t ∉ fetchTasks tenant now ts)
    ∧ (∀ t ∈ ts, t.status = "completed" → t ∉ fetchTasks tenant now ts) := by
  have hmem : ∀ t : DbTask, t ∈ fetchTasks tenant now ts
      ↔ (t ∈ ts ∧ t.tenant_id = tenant ∧ t.status ≠ "completed"
          ∧ startOfDay now ≤ t.due_at ∧ t.due_at ≤ endOfDay now) := by
    intro t
    simp [fetchTasks, visibleTasks, List.mem_filter, Bool.and_eq_true,
      decide_eq_true_eq, bne_iff_ne, beq_iff_eq, and_assoc]
    tauto
  refine ⟨hmem, List.sorted_insertionSort _ _, ?_, ?_, ?_⟩
  · intro t ht htn hst hdue
    exact (hmem t).mpr ⟨ht, htn, hst, by rw [hdue]; exact Nat.le_add_right _ _,
      le_of_eq hdue⟩
  · intro t ht hdue hmem2
    rcases (hmem t).mp hmem2 with ⟨_, _, _, _, hle⟩
    rw [hdue] at hle
    unfold endOfDay MS_PER_DAY at hle
    omega
  · intro t ht hst hmem2
    rcases (hmem t).mp hmem2 with ⟨_, _, hne, _⟩
    exact hne hst

/-- Witness for C5: a task due during the reference day, in the caller
    tenant and not completed, is returned by the query. -/
theorem fetchTasks_spec_witness :
    (⟨"t1", "call", "open", "a1", "T1", 86400000⟩ : DbTask)
      ∈ fetchTasks "T1" 90000000 [⟨"t1", "call", "open", "a1", "T1", 86400000⟩] :=
  ((fetchTasks_spec "T1" 90000000 [⟨"t1", "call", "open", "a1", "T1", 86400000⟩]).1
    ⟨"t1", "call", "open", "a1", "T1", 86400000⟩).mpr (by decide)

/-! ## Theorems about the create-task handler -/

/-- C6: with the other fields present and a valid type, an unparsable
    due_at or one not strictly after the clock is rejected with 400 and no
    mutation, equality with the clock included; a strictly future due_at
    passes the date check and (when the application exists) the task is
    persisted. -/
theorem createTask_due_at_validation (parseDate : String → Option Nat) (now : Nat)
    (apps : List App) (tasks : List Task) (aid ty da : String)
    (ha : aid ≠ "") (hty : ty ∈ VALID_TYPES) (hda : da ≠ "") :
    (parseDate da = none →
      serveHandler parseDate now apps tasks "POST"
          (ReqBody.json ⟨some aid, some ty, some da⟩)
        = ⟨⟨400, some "due_at must be a valid date in the future"⟩, tasks⟩)
    ∧ (∀ d, parseDate da = some d → d ≤ now →
      serveHandler parseDate now apps tasks "POST"
          (ReqBody.json ⟨some aid, some ty, some da⟩)
        = ⟨⟨400, some "due_at must be a valid date in the future"⟩, tasks⟩)
    ∧ (∀ d app, parseDate da = some d → now < d →
      apps.find? (fun a => a.id == aid) = some app →
      serveHandler parseDate now apps tasks "POST"
          (ReqBody.json ⟨some aid, some ty, some da⟩)
        = ⟨⟨200, none⟩, tasks ++ [⟨app.tenant_id, aid, ty, da, "open"⟩]⟩) := by
  have ha2 : (aid == "") = false := beq_eq_false_iff_ne.mpr ha
  have hda2 : (da == "") = false := beq_eq_false_iff_ne.mpr hda
  have hty3 : (ty == "") = false :=
    beq_eq_false_iff_ne.mpr (fun h => absurd (h ▸ hty) (by decide))
  refine ⟨?_, ?_, ?_⟩
  · intro hparse
    simp [serveHandler, falsy, ha2, hda2, hty3, hty, hparse]
  · intro d hparse hd
    simp [serveHandler, falsy, ha2, hda2, hty3, hty, hparse, hd]
  · intro d app hparse hd hfind
    simp [serveHandler, falsy, ha2, hda2, hty3, hty, hparse, not_le.mpr hd, hfind]

/-- Witness for C6: a due_at parsing to exactly the clock value is
    rejected with the date error and the tasks table is untouched. -/
theorem createTask_due_at_validation_witness :
    serveHandler (fun _ => some 5) 5 [] [] "POST"
        (ReqBody.json ⟨some "a1", some "call", some "x"⟩)
      = ⟨⟨400, some "due_at must be a valid date in the future"⟩, []⟩ :=
  (createTask_due_at_validation (fun _ => some 5) 5 [] [] "a1" "call" "x"
    (by decide) (by decide) (by decide)).2.1 5 rfl (Nat.le_refl 5)

/-- C7: with the other fields present, a task_type outside the closed set
    call, email, review is rejected with 400 before any mutation, and with
    a type inside the set the invalid-type error can never be the
    response. -/
theorem createTask_type_validation (parseDate : String → Option Nat) (now : Nat)
    (apps : List App) (tasks : List Task) (aid ty da : String)
    (ha : aid ≠ "") (htyne : ty ≠ "") (hda : da ≠ "") :
    (ty ∉ VALID_TYPES →
      serveHandler parseDate now apps tasks "POST"
          (ReqBody.json ⟨some aid, some ty, some da⟩)
        = ⟨⟨400, some ("Invalid task_type. Must be one of: "
            ++ String.intercalate ", " VALID_TYPES)⟩, tasks⟩)
    ∧ (ty ∈ VALID_TYPES →
      (serveHandler parseDate now apps tasks "POST"
          (ReqBody.json ⟨some aid, some ty, some da⟩)).response.error
        ≠ some ("Invalid task_type. Must be one of: "
            ++ String.intercalate ", " VALID_TYPES)) := by
  have ha2 : (aid == "") = false := beq_eq_false_iff_ne.mpr ha
  have hda2 : (da == "") = false := beq_eq_false_iff_ne.mpr hda
  have hty3 : (ty == "") = false := beq_eq_false_iff_ne.mpr htyne
  have hmsg1 : some "due_at must be a valid date in the future"
      ≠ some ("Invalid task_type. Must be one of: "
        ++ String.intercalate ", " VALID_TYPES) := by decide
  have hmsg2 : some "Application not found"
      ≠ some ("Invalid task_type. Must be one of: "
        ++ String.intercalate ", " VALID_TYPES) := by decide
  have hmsg3 : (none : Option String)
      ≠ some ("Invalid task_type. Must be one of: "
        ++ String.intercalate ", " VALID_TYPES) := by decide
  constructor
  · intro hnot
    simp [serveHandler, falsy, ha2, hda2, hty3, hnot]
  · intro hmem
    rcases hp : parseDate da with _ | d
    · have h1 : serveHandler parseDate now apps tasks "POST"
          (ReqBody.json ⟨some aid, some ty, some da⟩)
          = ⟨⟨400, some "due_at must be a valid date in the future"⟩, tasks⟩ := by
        simp [serveHandler, falsy, ha2, hda2, hty3, hmem, hp]
      rw [h1]
      exact hmsg1
    · by_cases hd : d ≤ now
      · have h1 : serveHandler parseDate now apps tasks "POST"
            (ReqBody.json ⟨some aid, some ty, some da⟩)
            = ⟨⟨400, some "due_at must be a valid date in the future"⟩, tasks⟩ := by
          simp [serveHandler, falsy, ha2, hda2, hty3, hmem, hp, hd]
        rw [h1]
        exact hmsg1
      · rcases hf : apps.find? (fun a => a.id == aid) with _ | app
        · have h1 : serveHandler parseDate now apps tasks "POST"
              (ReqBody.json ⟨some aid, some ty, some da⟩)
              = ⟨⟨400, some "Application not found"⟩, tasks⟩ := by
            simp [serveHandler, falsy, ha2, hda2, hty3, hmem, hp, hd, hf]
          rw [h1]
          exact hmsg2
        · have h1 : serveHandler parseDate now apps tasks "POST"
              (ReqBody.json ⟨some aid, some ty, some da⟩)
              = ⟨⟨200, none⟩, tasks ++ [⟨app.tenant_id, aid, ty, da, "open"⟩]⟩ := by
            simp [serveHandler, falsy, ha2, hda2, hty3, hmem, hp, hd, hf]
          rw [h1]
          exact hmsg3

/-- Witness for C7: task_type sms is rejected with the invalid-type error
    and the tasks table is untouched. -/
theorem createTask_type_validation_witness :
    serveHandler (fun _ => none) 0 [] [] "POST"
        (ReqBody.json ⟨some "a1", some "sms", some "x"⟩)
      = ⟨⟨400, some ("Invalid task_type. Must be one of: "
          ++ String.intercalate ", " VALID_TYPES)⟩, []⟩ :=
  (createTask_type_validation (fun _ => none) 0 [] [] "a1" "sms" "x"
    (by decide) (by decide) (by decide)).1 (by decide)

/-- C9: a POST whose body fails JSON parsing lands in the catch block and
    yields the generic 500, not a 400 validation error, leaving the tasks
    table untouched. -/
theorem createTask_invalid_json_500 (parseDate : String → Option Nat) (now : Nat)
    (apps : List App) (tasks : List Task) :
    serveHandler parseDate now apps tasks "POST" ReqBody.invalidJson
      = ⟨⟨500, some "Internal server error"⟩, tasks⟩ := by
  simp [serveHandler]

/-- C10: an empty string in any of the three required fields is falsy, so
    the request is rejected with the missing-fields 400 before the type or
    date validation can run, whatever those other fields hold. -/
theorem createTask_empty_field_missing (parseDate : String → Option Nat) (now : Nat)
    (apps : List App) (tasks : List Task) (b : CreateTaskBody)
    (h : b.application_id = some "" ∨ b.task_type = some "" ∨ b.due_at = some "") :
    serveHandler parseDate now apps tasks "POST" (ReqBody.json b)
      = ⟨⟨400, some "Missing required fields"⟩, tasks⟩ := by
  have hf : (falsy b.application_id || falsy b.task_type || falsy b.due_at) = true := by
    rcases h with h | h | h <;> simp [h, falsy]
  simp [serveHandler, hf]

/-- Witness for C10: an empty application_id is reported as missing even
    though the type and date fields are individually valid. -/
theorem createTask_empty_field_missing_witness :
    serveHandler (fun _ => some 10) 0 [] [] "POST"
        (ReqBody.json ⟨some "", some "call", some "2030-01-01T00:00:00Z"⟩)
      = ⟨⟨400, some "Missing required fields"⟩, []⟩ :=
  createTask_empty_field_missing (fun _ => some 10) 0 [] []
    ⟨some "", some "call", some "2030-01-01T00:00:00Z"⟩ (Or.inl rfl)

/-- C1: the handler reads no principal, so no tenant-isolation comparison
    between caller and application can occur and PermissionDenied is never
    returned. Concrete run of the embedded handler: application app1
    belongs to tenant T1; the request (issued on behalf of any caller, in
    particular one whose own tenant is T2) succeeds with 200 and the task
    is persisted under tenant T1. -/
theorem createTask_no_principal_tenant_check :
    serveHandler (fun _ => some 2000) 1000 [⟨"app1", "T1"⟩] [] "POST"
        (ReqBody.json ⟨some "app1", some "call", some "2030-01-01T00:00:00Z"⟩)
      = ⟨⟨200, none⟩, [⟨"T1", "app1", "call", "2030-01-01T00:00:00Z", "open"⟩]⟩ := by
  decide

end LearnLynk
